import Mathlib

/-!
Model of a Go repository consisting of a worker pool package and a logging
facade package.  Pure data and functions mirror the source.  Concurrency is
summarised as follows: each execution unit launched by Start is modelled by
the observable outcome of its body and its deferred recovery handler, the
wait-group wait returns exactly when every launched unit has executed
wg.Done, a send or a receive on a nil channel blocks forever, and an
unrecovered panic in any unit aborts the whole process.
-/

/-- A variadic logging argument: a Go interface value holding a string or an int. -/
inductive AttrVal
  | str (s : String)
  | int (i : Int)
deriving DecidableEq

/-- Severity levels of the logging facade. -/
inductive LogLevel
  | debug
  | info
  | warn
  | error
deriving DecidableEq

/-- One emitted log record: level, message string and variadic arguments. -/
structure LogEvent where
  level : LogLevel
  msg : String
  args : List AttrVal
deriving DecidableEq

/-- An output destination: stdout or some other open file. -/
inductive OutStream
  | stdout
  | file (id : Nat)
deriving DecidableEq

/-- logger.Config (logger.go lines 17-23); output is optional, none models a nil file pointer. -/
structure Config where
  level : Int
  format : String
  addSource : Bool
  output : Option OutStream
  timeFormat : String
deriving DecidableEq

/-- The handler options configured by Init: minimum level, source flag, and the
optional time rewriting closure, present exactly when a custom time format was given. -/
structure HandlerOptions where
  level : Int
  addSource : Bool
  timeReplace : Option String
deriving DecidableEq

/-- The handler chosen by Init: a JSON handler or a text handler over a destination. -/
inductive Handler
  | json (out : OutStream) (opts : HandlerOptions)
  | text (out : OutStream) (opts : HandlerOptions)
deriving DecidableEq

/-- The wrapped structured logger: its handler plus the attributes and groups
accumulated by derivation calls. -/
structure SlogLogger where
  handler : Handler
  attrs : List AttrVal
  groups : List String
deriving DecidableEq

/-- A fresh structured logger over a handler. -/
def slogNew (h : Handler) : SlogLogger := { handler := h, attrs := [], groups := [] }

/-- Attribute attachment on the wrapped logger: record additional variadic arguments. -/
def SlogLogger.withArgs (s : SlogLogger) (args : List AttrVal) : SlogLogger :=
  { s with attrs := s.attrs ++ args }

/-- Group scoping on the wrapped logger: nest subsequent attributes under a named group. -/
def SlogLogger.withGroup (s : SlogLogger) (g : String) : SlogLogger :=
  { s with groups := s.groups ++ [g] }

/-- logger.Logger (logger.go lines 11-14): the wrapped logger and the handler stored beside it. -/
structure Logger where
  slog : SlogLogger
  handler : Handler
deriving DecidableEq

/-- The package-level singleton state: the instance pointer and the once flag. -/
structure LoggerState where
  inst : Option Logger
  onceDone : Bool
deriving DecidableEq

/-- Zero values of the package-level variables before any call. -/
def initialLoggerState : LoggerState := { inst := none, onceDone := false }

/-- Configuration resolution inside Init (logger.go lines 35-49): a nil config
gets the default of info level, text format and stdout; a nil output becomes stdout. -/
def resolveConfig (conf : Option Config) : Config :=
  let config : Config :=
    match conf with
    | none =>
        { level := 0, format := "text", addSource := false,
          output := some OutStream.stdout, timeFormat := "" }
    | some c => c
  if config.output = none then { config with output := some OutStream.stdout } else config

/-- Handler options built by Init (logger.go lines 52-64). -/
def buildOpts (config : Config) : HandlerOptions :=
  { level := config.level, addSource := config.addSource,
    timeReplace := if config.timeFormat = "" then none else some config.timeFormat }

/-- Handler selection by format (logger.go lines 67-73): the json format yields a
JSON handler, anything else a text handler.  After resolveConfig the output is
always set; getD only totalises the access. -/
def buildHandler (config : Config) : Handler :=
  match config.format with
  | "json" => Handler.json (config.output.getD OutStream.stdout) (buildOpts config)
  | _ => Handler.text (config.output.getD OutStream.stdout) (buildOpts config)

/-- The instance constructed by the first Init call (logger.go lines 75-78). -/
def initInstance (conf : Option Config) : Logger :=
  { slog := slogNew (buildHandler (resolveConfig conf)),
    handler := buildHandler (resolveConfig conf) }

/-- logger.Init (logger.go lines 33-81): the once body runs only on the first
call and stores the instance; every call returns the stored instance pointer. -/
def Init (st : LoggerState) (conf : Option Config) : LoggerState × Option Logger :=
  let st' : LoggerState :=
    if st.onceDone then st
    else { inst := some (initInstance conf), onceDone := true }
  (st', st'.inst)

/-- logger.GetInstance (logger.go lines 83-88): panics when the instance pointer
is nil, modelled as an error result. -/
def GetInstance (st : LoggerState) : Except String Logger :=
  match st.inst with
  | none => Except.error "logger not initialized"
  | some l => Except.ok l

/-- Logger.With (logger.go lines 91-98): a new handle with extra attributes,
storing the receiver handler unchanged. -/
def Logger.With (l : Logger) (args : List AttrVal) : Logger :=
  { slog := l.slog.withArgs args, handler := l.handler }

/-- Logger.WithGroup (logger.go lines 100-107). -/
def Logger.WithGroup (l : Logger) (g : String) : Logger :=
  { slog := l.slog.withGroup g, handler := l.handler }

/-- Logger.Handler (logger.go lines 173-175): the stored handler. -/
def Logger.Handler (l : Logger) : Handler := l.handler

/-- The two context values Logger.WithContext inspects: the value under the
request id key when it is a string, and the value under the user id key when it
is an int.  A key that is absent or holds a value of another type is none. -/
structure Ctx where
  requestId : Option String
  userId : Option Int
deriving DecidableEq

/-- The attrs slice built by WithContext (logger.go lines 147-153). -/
def ctxAttrs (ctx : Ctx) : List AttrVal :=
  (match ctx.requestId with
   | some r => [AttrVal.str "request_id", AttrVal.str r]
   | none => []) ++
  (match ctx.userId with
   | some u => [AttrVal.str "user_id", AttrVal.int u]
   | none => [])

/-- Logger.WithContext (logger.go lines 142-163): with no extracted attributes
the receiver itself is returned. -/
def Logger.WithContext (l : Logger) (ctx : Ctx) : Logger :=
  let attrs := ctxAttrs ctx
  if attrs = [] then l
  else { slog := l.slog.withArgs attrs, handler := l.handler }

/-- The behaviour of one Process call of a worker: returns nil, returns an error, or panics. -/
inductive ProcResult
  | ok
  | err (e : String)
  | panics (v : String)
deriving DecidableEq

/-- IWorker (part_000 lines 10-14), with the Process behaviour made explicit. -/
structure Worker where
  name : String
  health : Bool
  process : ProcResult
deriving DecidableEq

/-- WorkerPool (part_000 lines 17-24): the cancellation flag of the context, the
registered workers slice, whose entries are interface values and hence possibly
nil, and the done channel, where none models a nil channel. -/
structure WorkerPool where
  ctxCancelled : Bool
  workers : List (Option Worker)
  done : Option Unit
deriving DecidableEq

/-- NewWorkerPool (part_000 lines 27-36): the composite literal leaves the done
field at its zero value, a nil channel. -/
def NewWorkerPool : WorkerPool :=
  { ctxCancelled := false, workers := [], done := none }

/-- WorkerPool.Register (part_000 lines 59-64): a nil worker is ignored, any
other worker is appended. -/
def WorkerPool.Register (wp : WorkerPool) (worker : Option Worker) : WorkerPool :=
  if worker = none then wp
  else { wp with workers := wp.workers ++ [worker] }

/-- A sequence of Register calls performed in order. -/
def registerAll (wp : WorkerPool) (regs : List (Option Worker)) : WorkerPool :=
  regs.foldl WorkerPool.Register wp

/-- Observable outcome of one launched execution unit: the records it logged,
whether wg.Done ran, and a panic value escaping the unit unrecovered, if any. -/
structure UnitExec where
  logs : List LogEvent
  wgDone : Bool
  escaped : Option String
deriving DecidableEq

/-- The goroutine body (part_000 lines 49-52): run Process, logging a non-nil
error at error level; a panic inside Process escapes the body.  Calling Process
on a nil interface value panics with a nil dereference. -/
def unitBody : Option Worker → List LogEvent × Option String
  | some w =>
      match w.process with
      | ProcResult.ok => ([], none)
      | ProcResult.err e =>
          ([{ level := LogLevel.error, msg := "worker process err: %v",
              args := [AttrVal.str e] }], none)
      | ProcResult.panics v => ([], some v)
  | none => ([], some "runtime error: invalid memory address or nil pointer dereference")

/-- The deferred function (part_000 lines 43-48), applied to the result of
recover.  With a recovered value it calls Logger.Panic (logger.go lines
130-133), which logs at error level and then panics again with the message
string, so wg.Done is never reached and the new panic escapes the unit; with no
recovered value it falls through to wg.Done.  Result: logged records, whether
wg.Done ran, and the escaping panic. -/
def deferredRecover : Option String → List LogEvent × Bool × Option String
  | some v =>
      ([{ level := LogLevel.error, msg := "panic: %v", args := [AttrVal.str v] }],
       false, some "panic: %v")
  | none => ([], true, none)

/-- One whole execution unit: the body, then the deferred function applied to
the panic recovered from the body. -/
def runUnit (w : Option Worker) : UnitExec :=
  let b := unitBody w
  let d := deferredRecover b.2
  { logs := b.1 ++ d.1, wgDone := d.2.1, escaped := d.2.2 }

/-- Outcome of a Start call, with the concurrency summarised sequentially. -/
inductive StartOutcome
  | processCrash (logs : List LogEvent) (v : String)
  | blockedOnWgWait (logs : List LogEvent)
  | blockedOnDoneSend (logs : List LogEvent)
  | returned (logs : List LogEvent)
deriving DecidableEq

/-- WorkerPool.Start (part_000 lines 39-57): launch one unit per registered
worker, wait on the wait group, then send on the done channel.  An escaping
panic in any unit aborts the process; wg.Wait returns only if every unit ran
wg.Done; the send on a nil done channel blocks forever, while on a live channel
it completes through the rendezvous with the receive in Close.  Logged records
are serialised in registration order. -/
def WorkerPool.Start (wp : WorkerPool) : StartOutcome :=
  let units := wp.workers.map runUnit
  let logs := (units.map UnitExec.logs).flatten
  match units.find? (fun u => u.escaped.isSome) with
  | some u => StartOutcome.processCrash logs (u.escaped.getD "")
  | none =>
      if units.all UnitExec.wgDone then
        match wp.done with
        | none => StartOutcome.blockedOnDoneSend logs
        | some _ => StartOutcome.returned logs
      else StartOutcome.blockedOnWgWait logs

/-- Whether a Start call on this pool ever signals the done channel. -/
def startSignals (wp : WorkerPool) : Bool :=
  match wp.Start with
  | StartOutcome.returned _ => true
  | _ => false

/-- Outcome of a Close call. -/
inductive CloseOutcome
  | blockedOnDoneRecv (logs : List LogEvent)
  | returned (logs : List LogEvent)
deriving DecidableEq

/-- WorkerPool.Close (part_000 lines 67-72): log the closing message, cancel the
context, then receive from the done channel; a receive on a nil channel blocks
forever, and on a live channel it completes exactly when the Start barrier has
signalled, which the signalled argument summarises.  The closed message is
logged only after the receive completes. -/
def WorkerPool.Close (wp : WorkerPool) (signalled : Bool) : WorkerPool × CloseOutcome :=
  let closing : LogEvent := { level := LogLevel.info, msg := "worker pool closing", args := [] }
  let closed : LogEvent := { level := LogLevel.info, msg := "worker pool closed", args := [] }
  let wp' := { wp with ctxCancelled := true }
  match wp.done with
  | none => (wp', CloseOutcome.blockedOnDoneRecv [closing])
  | some _ =>
      if signalled then (wp', CloseOutcome.returned [closing, closed])
      else (wp', CloseOutcome.blockedOnDoneRecv [closing])

/-- A worker whose Process returns nil, used as a concrete input. -/
def okWorker : Worker := { name := "w1", health := true, process := ProcResult.ok }

/-- A worker whose Process panics, used as a concrete input. -/
def panicWorker : Worker := { name := "w2", health := true, process := ProcResult.panics "boom" }

/-- A worker used as a concrete input for registration. -/
def w0 : Worker := { name := "w0", health := true, process := ProcResult.ok }

/-- The workers list after a sequence of Register calls is the initial list
followed by the registered non-nil workers, in order. -/
theorem registerAll_workers_eq (regs : List (Option Worker)) :
    ∀ wp : WorkerPool,
      (registerAll wp regs).workers = wp.workers ++ (regs.filterMap id).map some := by
  induction regs with
  | nil => intro wp; simp [registerAll]
  | cons r rs ih =>
      intro wp
      have h : registerAll wp (r :: rs) = registerAll (wp.Register r) rs := rfl
      rw [h, ih]
      cases r with
      | none => simp [WorkerPool.Register]
      | some w => simp [WorkerPool.Register]

/-- The number of registered non-nil workers equals the count of non-nil calls. -/
theorem filterMap_id_length_eq_countP (regs : List (Option Worker)) :
    (regs.filterMap id).length = regs.countP (fun r => r.isSome) := by
  induction regs with
  | nil => rfl
  | cons r rs ih => cases r <;> simp [List.countP_cons, ih]

/-- C1: the claim says Start blocks until every launched unit has finished, then
signals the one-shot completion channel exactly once, and only then returns.
On the code this fails: NewWorkerPool never initialises the done field, so the
send on the nil done channel at the end of Start blocks forever and Start
neither signals completion nor returns, already for zero workers and for one
worker whose Process returns nil. -/
theorem c1_start_never_signals :
    NewWorkerPool.done = none ∧
    NewWorkerPool.Start = StartOutcome.blockedOnDoneSend [] ∧
    (NewWorkerPool.Register (some okWorker)).Start = StartOutcome.blockedOnDoneSend [] := by
  decide

/-- C2: the claim says a panic in Process is intercepted, logged via the
panic-logging path, and converted into normal unit termination.  On the code
the recovery handler calls Logger.Panic, which logs at error level but then
panics again, so wg.Done is skipped and the new panic escapes the unit
unrecovered, aborting the whole process. -/
theorem c2_panic_escapes_and_crashes :
    runUnit (some panicWorker) =
      { logs := [{ level := LogLevel.error, msg := "panic: %v", args := [AttrVal.str "boom"] }],
        wgDone := false, escaped := some "panic: %v" } ∧
    (NewWorkerPool.Register (some panicWorker)).Start =
      StartOutcome.processCrash
        [{ level := LogLevel.error, msg := "panic: %v", args := [AttrVal.str "boom"] }]
        "panic: %v" := by
  decide

/-- C3: the claim says Close logs the closing message, cancels the context,
blocks until the completion signal from the Start barrier, then logs the closed
message and returns.  On the code the done channel is nil, so Start never
signals and the receive in Close blocks forever: the context is cancelled and
the closing message is logged, but the closed message is never logged and Close
never returns. -/
theorem c3_close_blocks_forever :
    startSignals NewWorkerPool = false ∧
    NewWorkerPool.Close (startSignals NewWorkerPool) =
      ({ ctxCancelled := true, workers := [], done := none },
       CloseOutcome.blockedOnDoneRecv
         [{ level := LogLevel.info, msg := "worker pool closing", args := [] }]) := by
  decide

/-- C4: registering a nil worker leaves the registration list unchanged,
registering a non-nil worker appends it, and after any sequence of Register
calls on a fresh pool the list is exactly the non-nil registered workers in
registration order, so its length is the number of non-nil calls. -/
theorem c4_register_behaviour (regs : List (Option Worker)) :
    (∀ wp : WorkerPool, wp.Register none = wp) ∧
    (∀ (wp : WorkerPool) (w : Worker),
        (wp.Register (some w)).workers = wp.workers ++ [some w]) ∧
    (registerAll NewWorkerPool regs).workers = (regs.filterMap id).map some ∧
    (registerAll NewWorkerPool regs).workers.length = regs.countP (fun r => r.isSome) := by
  refine ⟨fun wp => by simp [WorkerPool.Register],
          fun wp w => by simp [WorkerPool.Register], ?_, ?_⟩
  · rw [registerAll_workers_eq]; simp [NewWorkerPool]
  · rw [registerAll_workers_eq]
    simp [NewWorkerPool, filterMap_id_length_eq_countP]

/-- C5, counterexample: the claim says Register leaves the list unchanged when
called again with a worker already present.  On the code, registering w0 twice
changes the pool and yields a list containing w0 twice. -/
theorem c5_register_duplicate_cex :
    (NewWorkerPool.Register (some w0)).Register (some w0) ≠ NewWorkerPool.Register (some w0) ∧
    ((NewWorkerPool.Register (some w0)).Register (some w0)).workers = [some w0, some w0] := by
  decide

/-- C5, amended: Register performs no duplicate check; calling it again with a
non-nil worker already present appends the worker once more, so the list then
contains that worker at least twice. -/
theorem c5_register_appends_duplicates (wp : WorkerPool) (w : Worker)
    (h : some w ∈ wp.workers) :
    (wp.Register (some w)).workers = wp.workers ++ [some w] ∧
    2 ≤ (wp.Register (some w)).workers.count (some w) := by
  have happ : (wp.Register (some w)).workers = wp.workers ++ [some w] := by
    simp [WorkerPool.Register]
  refine ⟨happ, ?_⟩
  rw [happ, List.count_append]
  have h1 : 0 < wp.workers.count (some w) := List.count_pos_iff.mpr h
  have h2 : List.count (some w) [some w] = 1 := by simp
  omega

/-- C5, witness for the amended statement at a concrete pool containing w0. -/
theorem c5_register_appends_duplicates_witness :
    ((NewWorkerPool.Register (some w0)).Register (some w0)).workers
        = (NewWorkerPool.Register (some w0)).workers ++ [some w0] ∧
    2 ≤ ((NewWorkerPool.Register (some w0)).Register (some w0)).workers.count (some w0) :=
  c5_register_appends_duplicates (NewWorkerPool.Register (some w0)) w0 (by decide)

/-- C6: Init is idempotent under the singleton invariant: the first call builds
the instance from its own configuration, and every later call, with any
configuration including none, leaves the state unchanged and returns the same
already-constructed instance. -/
theorem c6_init_first_config_wins (conf1 conf2 : Option Config) :
    Init (Init initialLoggerState conf1).1 conf2
        = ((Init initialLoggerState conf1).1, (Init initialLoggerState conf1).2) ∧
    (Init initialLoggerState conf1).2 = some (initInstance conf1) ∧
    (initInstance conf1).handler = buildHandler (resolveConfig conf1) := by
  refine ⟨?_, ?_, rfl⟩
  · simp [Init, initialLoggerState]
  · simp [Init, initialLoggerState]

/-- C7: GetInstance on the untouched package state, where Init has never run,
raises the uninitialised panic and yields no logger; after any Init call it
returns the singleton. -/
theorem c7_getInstance_requires_prior_call (conf : Option Config) :
    GetInstance initialLoggerState = Except.error "logger not initialized" ∧
    GetInstance (Init initialLoggerState conf).1 = Except.ok (initInstance conf) := by
  constructor
  · rfl
  · simp [Init, initialLoggerState, GetInstance]

/-- C8: WithContext attaches the request identifier and the user identifier
found in the context as attributes on a new handle, in each of the three
present combinations, and returns the receiver itself when neither is present. -/
theorem c8_withContext_extraction (l : Logger) (r : String) (u : Int) :
    l.WithContext { requestId := some r, userId := some u }
        = { slog := l.slog.withArgs
              [AttrVal.str "request_id", AttrVal.str r, AttrVal.str "user_id", AttrVal.int u],
            handler := l.handler } ∧
    l.WithContext { requestId := some r, userId := none }
        = { slog := l.slog.withArgs [AttrVal.str "request_id", AttrVal.str r],
            handler := l.handler } ∧
    l.WithContext { requestId := none, userId := some u }
        = { slog := l.slog.withArgs [AttrVal.str "user_id", AttrVal.int u],
            handler := l.handler } ∧
    l.WithContext { requestId := none, userId := none } = l := by
  refine ⟨?_, ?_, ?_, ?_⟩ <;> simp [Logger.WithContext, ctxAttrs]

/-- C9: the derivation operations With, WithGroup and WithContext all return a
logger whose stored handler is the handler of the receiver, so Handler gives
the same result on the derived logger as on the receiver. -/
theorem c9_derivations_preserve_handler (l : Logger) (args : List AttrVal)
    (g : String) (ctx : Ctx) :
    (l.With args).Handler = l.Handler ∧
    (l.WithGroup g).Handler = l.Handler ∧
    (l.WithContext ctx).Handler = l.Handler := by
  refine ⟨rfl, rfl, ?_⟩
  by_cases h : ctxAttrs ctx = [] <;> simp [Logger.WithContext, Logger.Handler, h]

/-- C10: the workers list of a fresh pool is empty, and after any sequence of
Register calls every entry of the list is a non-nil worker, since Register
appends nothing when its argument is nil. -/
theorem c10_workers_never_nil (regs : List (Option Worker)) :
    NewWorkerPool.workers = [] ∧
    (registerAll NewWorkerPool regs).workers.all (fun r => r.isSome) = true := by
  refine ⟨rfl, ?_⟩
  rw [registerAll_workers_eq]
  simp [NewWorkerPool]
